import Mathlib

/-!
Verification of the manifest-driven PPT synthesis core
(`llm_integration.py`, `improved_ppt_processor.py`).

Shallow embedding: Python dicts produced by `json.loads` and the fallback
constructor are modelled by an inductive `Json` type; the stateful slide
code is modelled by pure functions over explicit data.  Each definition is
translated from the corresponding source function.
-/

/-- JSON values, as produced by `json.loads` and by the dict literals in
`llm_integration.py`.  Objects are ordered key/value lists with unique keys,
matching Python dict semantics. -/
inductive Json where
  | null : Json
  | b (v : Bool) : Json
  | n (v : Int) : Json
  | s (v : String) : Json
  | arr (items : List Json) : Json
  | obj (fields : List (String × Json)) : Json

/-- `d[key]` lookup on a JSON object (`None`-free access path helper);
non-objects have no keys. -/
def Json.getKey : Json → String → Option Json
  | .obj fields, k => fields.lookup k
  | _, _ => none

/-- `llm_integration.py::_create_fallback_manifest` (lines 374-402):
the deterministic fallback Manifest.  `raw` is the RawTemplateData dict;
`raw.get(k, default)` is modelled by `List.lookup` with `Option.getD`. -/
def create_fallback_manifest (raw : List (String × Json)) : Json :=
  Json.obj [
    ("slide_size", (raw.lookup "slide_size").getD
      (Json.obj [("width_emu", .n 9144000), ("height_emu", .n 6858000)])),
    ("theme", Json.obj [
      ("palette", Json.obj [
        ("primary", .s "#1f4e79"),
        ("secondary", .s "#4472c4"),
        ("accent", .arr [.s "#4472c4", .s "#ed7d31"]),
        ("text", .s "#000000"),
        ("background", .s "#ffffff")]),
      ("fonts", Json.obj [
        ("title_family", .s "Calibri"),
        ("body_family", .s "Calibri")])]),
    ("layouts", (raw.lookup "layouts").getD (Json.arr [])),
    ("text_defaults", Json.obj [
      ("title", Json.obj [
        ("family", .s "Calibri"), ("size_pt", .n 32),
        ("bold", .b true), ("color", .s "primary")]),
      ("body", .arr [Json.obj [
        ("level", .n 0), ("family", .s "Calibri"),
        ("size_pt", .n 18), ("color", .s "text")]])]),
    ("assets", (raw.lookup "images").getD (Json.arr [])),
    ("rules", Json.obj [
      ("title_color", .s "primary"),
      ("body_color", .s "text"),
      ("logo_policy", .s "Apply logos as found in template")])]

/-- The six required top-level keys of the fixed Manifest schema (spec 4.2). -/
def requiredManifestKeys : List String :=
  ["slide_size", "theme", "layouts", "text_defaults", "assets", "rules"]

/-- A manifest candidate is schema-valid when all six required top-level
keys are present. -/
def schemaValid (m : Json) : Bool :=
  requiredManifestKeys.all (fun k => (m.getKey k).isSome)

/-- `llm_integration.py::_parse_manifest_response` (lines 355-372), at the
JSON level.  The input is the assisted-normalization response after the
brace-slicing and `json.loads` step: `some c` when a JSON value was loaded,
`none` when no JSON could be extracted or `json.loads` raised.  The source
returns the parsed value unchanged — it performs no schema validation —
and raises (here `.error`) only when parsing itself failed. -/
def parse_manifest_response : Option Json → Except Unit Json
  | some c => .ok c
  | none => .error ()

/-- `llm_integration.py::generate_template_manifest` (lines 283-305):
returns the parsed assisted result when parsing succeeded, and the
deterministic fallback when the call or the parse raised. -/
def generate_template_manifest (raw : List (String × Json))
    (assisted : Option Json) : Json :=
  match parse_manifest_response assisted with
  | .ok m => m
  | .error _ => create_fallback_manifest raw

/-- Path lookup: `m["text_defaults"]["title"][field]`. -/
def titleDefault (m : Json) (field : String) : Option Json :=
  (m.getKey "text_defaults").bind (fun td => (td.getKey "title").bind (·.getKey field))

/-- Path lookup: `m["text_defaults"]["body"][0][field]`. -/
def bodyDefault (m : Json) (field : String) : Option Json :=
  (m.getKey "text_defaults").bind (fun td =>
    (td.getKey "body").bind (fun b =>
      match b with
      | .arr (b0 :: _) => b0.getKey field
      | _ => none))

/-- Path lookup: `m["rules"][field]`. -/
def ruleField (m : Json) (field : String) : Option Json :=
  (m.getKey "rules").bind (·.getKey field)

/-! ## String helpers mirroring the Python primitives used by the core -/

/-- Python `str.lower()` (ASCII case folding, as used on archetype slugs). -/
def strLower (s : String) : String := ⟨s.data.map Char.toLower⟩

/-- Containment of a character sequence in another (helper for Python `in`). -/
def containsSeq (needle : List Char) : List Char → Bool
  | [] => needle.isEmpty
  | c :: t => needle.isPrefixOf (c :: t) || containsSeq needle t

/-- Python `needle in hay` on strings. -/
def strContainsSub (hay needle : String) : Bool := containsSeq needle.data hay.data

/-- Python `bool(s.strip())`: true iff `s` has a non-whitespace character. -/
def hasNonWs (s : String) : Bool := s.data.any (fun c => !c.isWhitespace)

/-! ## Layout Resolver (`improved_ppt_processor.py` lines 560-672) -/

/-- Slide content as produced by the content generator: either a paragraph
string or a list of bullet strings. -/
inductive Content where
  | str (v : String) : Content
  | items (v : List String) : Content
deriving DecidableEq

/-- One ContentBlock dict (`slide_content`); absent keys are modelled by
their `dict.get` defaults (empty strings). -/
structure ContentBlock where
  title : String
  content : Content
  layout_hint : String
  speaker_notes : String
deriving DecidableEq

/-- One entry of `manifest['layouts']`: `layout_def.get('archetype')` is
`none` when the dict has no `archetype` key (as in the fallback manifest). -/
structure LayoutDef where
  name : String
  archetype : Option String
deriving DecidableEq

/-- A layout of the loaded presentation (`prs.slide_layouts` element). -/
structure PrsLayout where
  name : String
deriving DecidableEq

/-- First-priority test: `layout_def.get('archetype') == 'title_content'`. -/
def tierTitleContent (d : LayoutDef) : Bool := d.archetype == some "title_content"

/-- Second-priority test: `layout_def.get('archetype') in ['two_content']`. -/
def tierTwoContent (d : LayoutDef) : Bool := d.archetype == some "two_content"

/-- Third-priority test: `'content' in layout_def.get('archetype', '').lower()`. -/
def tierAnyContent (d : LayoutDef) : Bool :=
  strContainsSub (strLower (d.archetype.getD "")) "content"

/-- Section test: `layout_def.get('archetype') in ['section_header', 'title_only']`. -/
def tierSection (d : LayoutDef) : Bool :=
  d.archetype == some "section_header" || d.archetype == some "title_only"

/-- The content-capable branch of `_resolve_layout_from_manifest`
(lines 618-638): title_content first, then two_content when the content is
longer than 200 characters, then any archetype containing `"content"`. -/
def contentTierChoice (contentLength : Nat) (manifestLayouts : List LayoutDef) :
    Option LayoutDef :=
  match manifestLayouts.find? tierTitleContent with
  | some d => some d
  | none =>
    match (if contentLength > 200 then manifestLayouts.find? tierTwoContent else none) with
    | some d => some d
    | none => manifestLayouts.find? tierAnyContent

/-- The decision core of `_resolve_layout_from_manifest` (lines 599-656):
which manifest layout entry is selected.  A list-valued `content` makes
`slide_content.get('content', '').strip()` raise `AttributeError`, which the
enclosing `except` turns into `None` (here `none`).  When no tier matches,
the final fallback is `manifest_layouts[0]`. -/
def chooseManifestLayout (block : ContentBlock) (manifestLayouts : List LayoutDef) :
    Option LayoutDef :=
  if manifestLayouts.isEmpty then none
  else
    match block.content with
    | .items _ => none
    | .str s =>
      let hasContent := hasNonWs s
      match (if hasContent && s.length > 0 then contentTierChoice s.length manifestLayouts
             else none) with
      | some d => some d
      | none =>
        match (if block.layout_hint == "section" || !hasContent
               then manifestLayouts.find? tierSection else none) with
        | some d => some d
        | none => manifestLayouts.head?

/-- `_find_layout_by_name` (lines 658-672): exact name match, else the
second presentation layout (first when only one exists), `none` when the
index fallback itself fails (no layouts). -/
def find_layout_by_name (layoutName : String) (prs : List PrsLayout) : Option PrsLayout :=
  match prs.find? (fun l => l.name == layoutName) with
  | some l => some l
  | none => if prs.length > 1 then prs[1]? else prs[0]?

/-- `_resolve_layout_from_manifest` end to end: the selected manifest entry
is mapped to a presentation layout by name. -/
def resolve_layout_from_manifest (block : ContentBlock)
    (manifestLayouts : List LayoutDef) (prs : List PrsLayout) : Option PrsLayout :=
  (chooseManifestLayout block manifestLayouts).bind
    (fun d => find_layout_by_name d.name prs)

/-- The layout actually used by `_create_slide_with_manifest`
(lines 566-570): on a falsy resolution the hard default
`prs.slide_layouts[1]` (or `[0]` when only one layout exists) is taken. -/
def create_slide_layout_choice (block : ContentBlock)
    (manifestLayouts : List LayoutDef) (prs : List PrsLayout) : Option PrsLayout :=
  match resolve_layout_from_manifest block manifestLayouts prs with
  | some l => some l
  | none => if prs.length > 1 then prs[1]? else prs[0]?

/-! ## Geometry & Theme Extractor (`improved_ppt_processor.py` lines 442-558) -/

/-- The color-slot name for scheme index `j` (lines 471-481): the generic
`f"theme_color_{j}"` is overridden for indices 0..9. -/
def colorName (j : Nat) : String :=
  if j = 0 then "bg1"
  else if j = 1 then "text1"
  else if j = 2 then "bg2"
  else if j = 3 then "text2"
  else if j = 4 then "accent1"
  else if j = 5 then "accent2"
  else if j = 6 then "accent3"
  else if j = 7 then "accent4"
  else if j = 8 then "accent5"
  else if j = 9 then "accent6"
  else "theme_color_" ++ toString j

/-- Python `f"{n:06x}"`: lowercase hex, zero-padded to at least 6 digits. -/
def hex6 (n : Nat) : String :=
  let ds := Nat.toDigits 16 n
  ⟨List.replicate (6 - ds.length) '0' ++ ds⟩

/-- Python dict assignment `d[k] = v` on an association list: replace in
place when the key exists, append otherwise. -/
def insertAssoc {α : Type} (l : List (String × α)) (k : String) (v : α) :
    List (String × α) :=
  if l.any (fun p => p.1 == k) then l.map (fun p => if p.1 == k then (k, v) else p)
  else l ++ [(k, v)]

/-- One iteration of the color loop (lines 468-485): `cs j = none` models
an index access that raises or a color without an `rgb` attribute (both
skipped by the per-index `except`); otherwise
`raw_data["theme"]["colors"][color_name] = f"#{color.rgb:06x}"`. -/
def colorSchemeStep (cs : Nat → Option Nat) (a : List (String × String))
    (j : Nat) : List (String × String) :=
  match cs j with
  | some rgb => insertAssoc a (colorName j) ("#" ++ hex6 rgb)
  | none => a

/-- The `for j in range(12)` color loop (lines 467-485) over one color
scheme. -/
def extractColorSchemeEntries (cs : Nat → Option Nat)
    (acc : List (String × String)) : List (String × String) :=
  (List.range 12).foldl (colorSchemeStep cs) acc

/-- `master.theme.font_scheme` data: the outer `Option` is the truthiness
of `major_font`/`minor_font`, the inner the `.latin` value (may be `None`). -/
structure FontSchemeData where
  majorFont : Option (Option String)
  minorFont : Option (Option String)

/-- `master.theme`: color scheme and font scheme, each possibly falsy. -/
structure ThemeData where
  colorScheme : Option (Nat → Option Nat)
  fontScheme : Option FontSchemeData

/-- One slide master; `theme = none` models a falsy or unreadable theme. -/
structure MasterData where
  theme : Option ThemeData

/-- Extracted placeholder record (`ph_data`, lines 510-516). -/
structure PlaceholderRaw where
  kind : String
  left : Int
  top : Int
  width : Int
  height : Int
deriving DecidableEq

/-- A template layout as seen by the extractor; `none` in `placeholders`
models a placeholder whose attribute access raises (skipped, lines 518-519). -/
structure LayoutData where
  name : String
  placeholders : List (Option PlaceholderRaw)

/-- A shape on a template slide; `imageBlobSize = none` models an image
whose data cannot be read (skipped, lines 538-539). -/
structure ShapeData where
  isPicture : Bool
  left : Int
  top : Int
  width : Int
  height : Int
  imageBlobSize : Option Nat

/-- A slide shipped inside the template. -/
structure SlideData where
  shapes : List ShapeData

/-- The readable content of a template package. -/
structure TemplateData where
  slideWidthEmu : Int
  slideHeightEmu : Int
  masters : List MasterData
  layouts : List LayoutData
  slides : List SlideData

/-- One entry of `raw_data['layouts']` (lines 501-521). -/
structure RawLayout where
  index : Nat
  name : String
  placeholders : List PlaceholderRaw
deriving DecidableEq

/-- One entry of `raw_data['images']` (lines 528-537). -/
structure RawImage where
  id : String
  left : Int
  top : Int
  width : Int
  height : Int
  usage_hint : String
  size_bytes : Nat
deriving DecidableEq

/-- The `raw_data` dict assembled by `extract_raw_template_data`. -/
structure RawTemplateData where
  slide_width_emu : Int
  slide_height_emu : Int
  theme_colors : List (String × String)
  theme_fonts : List (String × Option String)
  layouts : List RawLayout
  images : List RawImage
deriving DecidableEq

/-- Color extraction for one master (lines 464-485): skipped entirely when
`master.theme` or its `color_scheme` is falsy. -/
def extractMasterColors (acc : List (String × String)) (m : MasterData) :
    List (String × String) :=
  match m.theme with
  | none => acc
  | some th =>
    match th.colorScheme with
    | none => acc
    | some cs => extractColorSchemeEntries cs acc

/-- Font extraction for one master (lines 488-496): `major`/`minor` entries
are written only when the corresponding theme font is truthy. -/
def extractMasterFonts (acc : List (String × Option String)) (m : MasterData) :
    List (String × Option String) :=
  match m.theme with
  | none => acc
  | some th =>
    match th.fontScheme with
    | none => acc
    | some fs =>
      let acc1 := match fs.majorFont with
        | some latin => insertAssoc acc "major" latin
        | none => acc
      match fs.minorFont with
      | some latin => insertAssoc acc1 "minor" latin
      | none => acc1

/-- Layout extraction (lines 501-521): every layout is kept; unreadable
placeholders are dropped by the per-placeholder `except`. -/
def extract_layouts (ls : List LayoutData) : List RawLayout :=
  ls.enum.map (fun p => ⟨p.1, p.2.name, p.2.placeholders.filterMap id⟩)

/-- Image extraction from template slides (lines 524-539): pictures only,
unreadable images skipped. -/
def extract_images (slides : List SlideData) : List RawImage :=
  (slides.enum.map (fun sp =>
    sp.2.shapes.enum.filterMap (fun hp =>
      if hp.2.isPicture then
        hp.2.imageBlobSize.map (fun bs =>
          { id := "img_" ++ toString sp.1 ++ "_" ++ toString hp.1,
            left := hp.2.left, top := hp.2.top,
            width := hp.2.width, height := hp.2.height,
            usage_hint := "appears on slide " ++ toString (sp.1 + 1),
            size_bytes := bs })
      else none))).flatten

/-- The default dict returned by the top-level `except` (lines 553-558). -/
def default_raw_template_data : RawTemplateData :=
  ⟨9144000, 6858000, [], [], [], []⟩

/-- The `raw_data` built for a readable template (lines 445-547). -/
def extractedRaw (t : TemplateData) : RawTemplateData :=
  { slide_width_emu := t.slideWidthEmu,
    slide_height_emu := t.slideHeightEmu,
    theme_colors := t.masters.foldl extractMasterColors [],
    theme_fonts := t.masters.foldl extractMasterFonts [],
    layouts := extract_layouts t.layouts,
    images := extract_images t.slides }

/-- The failure the spec attributes to an unreadable package. -/
inductive ExtractionError where
  | unreadable : ExtractionError
deriving DecidableEq

/-- `extract_raw_template_data` (lines 442-558): `none` models a template
whose `Presentation(template_path)` raises (unreadable package).  The
top-level `except` catches everything and returns the default dict, so the
function never fails. -/
def extract_raw_template_data :
    Option TemplateData → Except ExtractionError RawTemplateData
  | none => .ok default_raw_template_data
  | some t => .ok (extractedRaw t)

/-! ## Styling Applier (`improved_ppt_processor.py` lines 674-774) -/

/-- Python truthiness of `body_content` (`if not body_content:`). -/
def pyTruthyContent : Content → Bool
  | .str v => v != ""
  | .items l => !l.isEmpty

/-- Rendering of body content (lines 706-709): bullets joined with
newlines, strings verbatim. -/
def render_body : Content → String
  | .str v => v
  | .items l => String.intercalate "\n" (l.map (fun item => "• " ++ item))

/-- The empty-content fallback (lines 700-702): falsy content is replaced
by a phrase derived from the title, or a generic phrase for a falsy title. -/
def effective_body_content (titleText : String) (c : Content) : Content :=
  if pyTruthyContent c then c
  else .str (if titleText != "" then "Key points about " ++ titleText
             else "Content will be added here")

/-- The body text written to the located body shape (line 761). -/
def effective_body_text (titleText : String) (c : Content) : String :=
  render_body (effective_body_content titleText c)

/-! ## Asset Placer (`improved_ppt_processor.py` lines 819-839) -/

/-- The `should_apply` predicate of `_add_manifest_assets` (lines 828-831),
with `apply_policy = asset.get('apply_on', 'none')` already substituted. -/
def should_apply_asset (apply_policy : String) (slide_idx : Nat) : Bool :=
  apply_policy == "all" || (apply_policy == "title_only" && slide_idx == 0)

/-- One entry of `manifest['assets']` as read by `_add_manifest_assets`:
`apply_on = none` models a dict without the key, defaulted to `"none"` by
`asset.get('apply_on', 'none')` (line 825). -/
structure AssetDef where
  id : String
  apply_on : Option String
deriving DecidableEq

/-- `_add_manifest_assets` (lines 819-839) in full.  The slide state is the
list of pictures placed on it.  For every asset the `should_apply`
predicate is evaluated, but a true predicate only prints
`"Would add asset …"` (lines 833-836, ending in
`TODO: Implement actual image copying from template`): no picture is ever
added.  The result is the slide's picture list — returned unchanged — paired
with the ids of the assets that would have been applied (the log lines). -/
def add_manifest_assets (slidePictures : List String) (assets : List AssetDef)
    (slide_idx : Nat) : List String × List String :=
  (slidePictures,
   assets.filterMap (fun a =>
     if should_apply_asset (a.apply_on.getD "none") slide_idx then some a.id
     else none))

/-! ## Text formatting (`improved_ppt_processor.py` lines 776-817) -/

/-- Mutable font attributes of a run. -/
structure FontState where
  name : Option String
  size_pt : Option Nat
  bold : Option Bool
  color_rgb : Option (Nat × Nat × Nat)
deriving DecidableEq

/-- A text run: its text and its font. -/
structure TextRun where
  text : String
  font : FontState
deriving DecidableEq

/-- `format_rules` from `text_defaults`; absent keys are `none`. -/
structure FormatRules where
  family : Option String
  size_pt : Option Nat
  bold : Option Bool
  color : Option String
deriving DecidableEq

/-- Value of one hex digit, as accepted by Python `int(_, 16)`. -/
def hexDigitVal (c : Char) : Option Nat :=
  if '0' ≤ c ∧ c ≤ '9' then some (c.toNat - 48)
  else if 'a' ≤ c ∧ c ≤ 'f' then some (c.toNat - 87)
  else if 'A' ≤ c ∧ c ≤ 'F' then some (c.toNat - 55)
  else none

/-- `int(two_hex_chars, 16)`, `none` when a digit is invalid (the source
catches the `ValueError` and skips color assignment). -/
def hexByte (c1 c2 : Char) : Option Nat :=
  match hexDigitVal c1, hexDigitVal c2 with
  | some a, some b => some (16 * a + b)
  | _, _ => none

/-- The three `int(color_hex[i:i+2], 16)` conversions (lines 807-811). -/
def parseHexColor (s : String) : Option (Nat × Nat × Nat) :=
  match s.data with
  | [a, b, c, d, e, f] =>
    match hexByte a b, hexByte c d, hexByte e f with
    | some r, some g, some bl => some (r, g, bl)
    | _, _, _ => none
  | _ => none

/-- `palette[color_key].replace('#', '')`. -/
def stripHash (s : String) : String := ⟨s.data.filter (fun c => c != '#')⟩

/-- The font mutations of `_apply_text_formatting` (lines 789-814) on one
font, following Python truthiness of each rule value. -/
def applyFontRules (f : FontState) (rules : FormatRules)
    (palette : List (String × String)) : FontState :=
  let f1 := match rules.family with
    | some fam => if fam != "" then { f with name := some fam } else f
    | none => f
  let f2 := match rules.size_pt with
    | some n => if n != 0 then { f1 with size_pt := some n } else f1
    | none => f1
  let f3 := if rules.bold == some true then { f2 with bold := some true } else f2
  match rules.color with
  | some key =>
    if key != "" then
      match palette.lookup key with
      | some hexStr =>
        if hexStr != "" then
          let hs := stripHash hexStr
          if hs.length == 6 then
            match parseHexColor hs with
            | some rgb => { f3 with color_rgb := some rgb }
            | none => f3
          else f3
        else f3
      | none => f3
    else f3
  | none => f3

/-- `_apply_text_formatting` (lines 776-817) on a text frame modelled as a
list of paragraphs, each a list of runs: returns unchanged when there is no
paragraph or the first paragraph has no run, otherwise updates only the
font of the first run of the first paragraph. -/
def apply_text_formatting (tf : List (List TextRun)) (rules : FormatRules)
    (palette : List (String × String)) : List (List TextRun) :=
  match tf with
  | [] => tf
  | para0 :: rest =>
    match para0 with
    | [] => tf
    | r0 :: rs => ({ r0 with font := applyFontRules r0.font rules palette } :: rs) :: rest

/-! ## Claim theorems -/

/-- C1 counterexample: a successfully parsed candidate missing the
required key `"rules"` (here the empty JSON object) is returned unchanged
by `generate_template_manifest`; the deterministic fallback — whose
`rules.title_color` is `"primary"` — is not substituted, so the claimed
schema validation does not happen. -/
theorem c1_counterexample :
    generate_template_manifest [] (some (Json.obj [])) = Json.obj []
    ∧ (Json.obj []).getKey "rules" = none
    ∧ ruleField (create_fallback_manifest []) "title_color" = some (Json.s "primary")
    ∧ generate_template_manifest [] (some (Json.obj [])) ≠ create_fallback_manifest [] := by
  refine ⟨rfl, rfl, rfl, ?_⟩
  intro h
  simp [generate_template_manifest, parse_manifest_response, create_fallback_manifest] at h

/-- C1 (amended): the Manifest Builder performs no schema validation on a
parsed candidate: `generate_template_manifest` returns the candidate
unchanged even when it is missing the required key `"rules"`, and it
returns the deterministic fallback — whose `rules.title_color` is
`"primary"` — exactly when the assisted step produced no parseable JSON. -/
theorem c1_no_validation (raw : List (String × Json)) (cand : Json)
    (hmissing : cand.getKey "rules" = none) :
    generate_template_manifest raw (some cand) = cand
    ∧ (generate_template_manifest raw (some cand)).getKey "rules" = none
    ∧ generate_template_manifest raw none = create_fallback_manifest raw
    ∧ ruleField (create_fallback_manifest raw) "title_color" = some (Json.s "primary") :=
  ⟨rfl, hmissing, rfl, rfl⟩

/-- C1 witness: the amended theorem applied to a concrete candidate. -/
theorem c1_no_validation_witness :
    (Json.obj [("theme", Json.null)]).getKey "rules" = none
    ∧ (generate_template_manifest [] (some (Json.obj [("theme", Json.null)]))
         = Json.obj [("theme", Json.null)]
       ∧ (generate_template_manifest [] (some (Json.obj [("theme", Json.null)]))).getKey "rules" = none
       ∧ generate_template_manifest [] none = create_fallback_manifest []
       ∧ ruleField (create_fallback_manifest []) "title_color" = some (Json.s "primary")) :=
  ⟨rfl, c1_no_validation [] (Json.obj [("theme", Json.null)]) rfl⟩

/-- C3: the deterministic fallback constructor is a total function of the
raw dict and its result is always schema-valid (all six required top-level
keys present), with the fixed 32pt bold title and 18pt level-0 body
defaults in `text_defaults`. -/
theorem c3_fallback_total_and_valid (raw : List (String × Json)) :
    schemaValid (create_fallback_manifest raw) = true
    ∧ titleDefault (create_fallback_manifest raw) "size_pt" = some (Json.n 32)
    ∧ titleDefault (create_fallback_manifest raw) "bold" = some (Json.b true)
    ∧ bodyDefault (create_fallback_manifest raw) "size_pt" = some (Json.n 18) :=
  ⟨rfl, rfl, rfl, rfl⟩

/-- A layout entry whose archetype is missing or `"other"` matches none of
the four resolution tiers. -/
theorem noTierMatch_of_default (d : LayoutDef)
    (h : d.archetype = none ∨ d.archetype = some "other") :
    tierTitleContent d = false ∧ tierTwoContent d = false
    ∧ tierAnyContent d = false ∧ tierSection d = false := by
  rcases h with h | h <;>
    refine ⟨?_, ?_, ?_, ?_⟩ <;>
      simp [tierTitleContent, tierTwoContent, tierAnyContent, tierSection, h] <;>
        decide

/-- C4: the fallback Manifest's `layouts` and `assets` are the raw
`layouts`/`images` values unchanged (hence every placeholder's
left/top/width/height is identical to the raw one), and a layout entry
carrying no archetype key behaves in layout resolution exactly like the
default archetype `"other"`: with string content, both match no tier and
resolution falls through to the first manifest layout. -/
theorem c4_fallback_copies_raw (raw : List (String × Json)) (L I : Json)
    (hL : raw.lookup "layouts" = some L) (hI : raw.lookup "images" = some I)
    (t s hint notes : String) (mls : List LayoutDef)
    (harch : ∀ d ∈ mls, d.archetype = none ∨ d.archetype = some "other") :
    (create_fallback_manifest raw).getKey "layouts" = some L
    ∧ (create_fallback_manifest raw).getKey "assets" = some I
    ∧ chooseManifestLayout ⟨t, .str s, hint, notes⟩ mls = mls.head? := by
  refine ⟨?_, ?_, ?_⟩
  · show some ((raw.lookup "layouts").getD (Json.arr [])) = some L
    rw [hL]
    rfl
  · show some ((raw.lookup "images").getD (Json.arr [])) = some I
    rw [hI]
    rfl
  · cases mls with
    | nil => rfl
    | cons d0 ds =>
      have h1 : (d0 :: ds).find? tierTitleContent = none :=
        List.find?_eq_none.mpr fun d hd => by
          simp [(noTierMatch_of_default d (harch d hd)).1]
      have h2 : (d0 :: ds).find? tierTwoContent = none :=
        List.find?_eq_none.mpr fun d hd => by
          simp [(noTierMatch_of_default d (harch d hd)).2.1]
      have h3 : (d0 :: ds).find? tierAnyContent = none :=
        List.find?_eq_none.mpr fun d hd => by
          simp [(noTierMatch_of_default d (harch d hd)).2.2.1]
      have h4 : (d0 :: ds).find? tierSection = none :=
        List.find?_eq_none.mpr fun d hd => by
          simp [(noTierMatch_of_default d (harch d hd)).2.2.2]
      simp [chooseManifestLayout, contentTierChoice, h1, h2, h3, h4]

/-- C4 witness: the theorem applied to a concrete raw dict and a concrete
archetype-free manifest layout list. -/
theorem c4_fallback_copies_raw_witness :
    [("layouts", Json.arr [Json.null]), ("images", Json.arr [])].lookup "layouts"
      = some (Json.arr [Json.null])
    ∧ ((create_fallback_manifest [("layouts", Json.arr [Json.null]), ("images", Json.arr [])]).getKey "layouts"
         = some (Json.arr [Json.null])
       ∧ (create_fallback_manifest [("layouts", Json.arr [Json.null]), ("images", Json.arr [])]).getKey "assets"
         = some (Json.arr [])
       ∧ chooseManifestLayout ⟨"T", .str "body", "", ""⟩
           [⟨"L0", none⟩, ⟨"L1", some "other"⟩]
         = [⟨"L0", none⟩, ⟨"L1", some "other"⟩].head?) :=
  ⟨rfl, c4_fallback_copies_raw
    [("layouts", Json.arr [Json.null]), ("images", Json.arr [])]
    (Json.arr [Json.null]) (Json.arr []) rfl rfl "T" "body" "" ""
    [⟨"L0", none⟩, ⟨"L1", some "other"⟩] (by decide)⟩

/-- A first-tier match fixes the archetype to `"title_content"`. -/
theorem archetype_of_tier1 {d : LayoutDef} (h : tierTitleContent d = true) :
    d.archetype = some "title_content" := by
  simpa [tierTitleContent] using h

/-- A second-tier match fixes the archetype to `"two_content"`. -/
theorem archetype_of_tier2 {d : LayoutDef} (h : tierTwoContent d = true) :
    d.archetype = some "two_content" := by
  simpa [tierTwoContent] using h

/-- A title_content layout is content-capable. -/
theorem tierAnyContent_of_tier1 {d : LayoutDef} (h : tierTitleContent d = true) :
    tierAnyContent d = true := by
  simp only [tierAnyContent, archetype_of_tier1 h]
  decide

/-- A two_content layout is content-capable. -/
theorem tierAnyContent_of_tier2 {d : LayoutDef} (h : tierTwoContent d = true) :
    tierAnyContent d = true := by
  simp only [tierAnyContent, archetype_of_tier2 h]
  decide

/-- A content-capable layout is never a section_header. -/
theorem not_section_of_cap {d : LayoutDef} (h : tierAnyContent d = true) :
    d.archetype ≠ some "section_header" := by
  intro he
  simp only [tierAnyContent, he] at h
  exact absurd h (by decide)

/-- When a content-capable layout exists, the content tier always selects
one. -/
theorem contentTierChoice_cap (len : Nat) (mls : List LayoutDef)
    (hcap : ∃ d ∈ mls, tierAnyContent d = true) :
    ∃ d, contentTierChoice len mls = some d ∧ tierAnyContent d = true := by
  unfold contentTierChoice
  cases h1 : mls.find? tierTitleContent with
  | some d => exact ⟨d, rfl, tierAnyContent_of_tier1 (List.find?_some h1)⟩
  | none =>
    cases h2 : (if len > 200 then mls.find? tierTwoContent else none) with
    | some d =>
      refine ⟨d, rfl, ?_⟩
      by_cases hl : len > 200
      · rw [if_pos hl] at h2
        exact tierAnyContent_of_tier2 (List.find?_some h2)
      · rw [if_neg hl] at h2
        cases h2
    | none =>
      cases h3 : mls.find? tierAnyContent with
      | some d => exact ⟨d, rfl, List.find?_some h3⟩
      | none =>
        exfalso
        obtain ⟨d, hd, hcapd⟩ := hcap
        exact absurd hcapd (List.find?_eq_none.mp h3 d hd)

/-- C2 counterexample: a ContentBlock whose content is the non-empty
string `" "` (whitespace only), with `layout_hint = "section"`, resolves to
the section_header entry even though a content-capable title_content entry
exists in the manifest. -/
theorem c2_counterexample :
    chooseManifestLayout ⟨"Section A", .str " ", "section", ""⟩
        [⟨"SH", some "section_header"⟩, ⟨"TC", some "title_content"⟩]
      = some ⟨"SH", some "section_header"⟩
    ∧ (" " : String) ≠ ""
    ∧ tierAnyContent ⟨"TC", some "title_content"⟩ = true := by
  refine ⟨rfl, by decide, by decide⟩

/-- C2 (amended): for a ContentBlock whose content is a string containing
at least one non-whitespace character, resolution never selects a
section_header entry when some manifest entry is content-capable — even
with `layout_hint = "section"` — and the first title_content entry in
manifest order wins inside the content tier. -/
theorem c2_content_priority (t s hint notes : String) (mls : List LayoutDef)
    (hs : hasNonWs s = true) (hcap : ∃ d ∈ mls, tierAnyContent d = true) :
    (∀ d, chooseManifestLayout ⟨t, .str s, hint, notes⟩ mls = some d →
        tierAnyContent d = true ∧ d.archetype ≠ some "section_header")
    ∧ (∀ d, mls.find? tierTitleContent = some d →
        chooseManifestLayout ⟨t, .str s, hint, notes⟩ mls = some d) := by
  have hne : mls.isEmpty = false := by
    obtain ⟨dcap, hdcap, -⟩ := hcap
    cases mls
    · cases hdcap
    · rfl
  have hdata : s.data ≠ [] := by
    intro h0
    simp only [hasNonWs, h0, List.any_nil] at hs
    exact Bool.false_ne_true hs
  have hlen : s.length > 0 := List.length_pos.mpr hdata
  obtain ⟨dc, hdc, hdcap2⟩ := contentTierChoice_cap s.length mls hcap
  have hchoose : chooseManifestLayout ⟨t, .str s, hint, notes⟩ mls = some dc := by
    simp [chooseManifestLayout, hne, hs, hlen, hdc]
  constructor
  · intro d hd
    rw [hchoose] at hd
    rw [← Option.some.inj hd]
    exact ⟨hdcap2, not_section_of_cap hdcap2⟩
  · intro d hd1
    have h2 : contentTierChoice s.length mls = some d := by
      unfold contentTierChoice
      rw [hd1]
    rw [h2] at hdc
    rw [← Option.some.inj hdc] at hchoose
    exact hchoose

/-- C2 witness: the amended theorem applied to a concrete block and
manifest. -/
theorem c2_content_priority_witness :
    hasNonWs "Hello" = true
    ∧ ((∀ d, chooseManifestLayout ⟨"T", .str "Hello", "section", ""⟩
            [⟨"TC", some "title_content"⟩] = some d →
          tierAnyContent d = true ∧ d.archetype ≠ some "section_header")
       ∧ (∀ d, [(⟨"TC", some "title_content"⟩ : LayoutDef)].find? tierTitleContent = some d →
          chooseManifestLayout ⟨"T", .str "Hello", "section", ""⟩
            [⟨"TC", some "title_content"⟩] = some d)) :=
  ⟨by decide, c2_content_priority "T" "Hello" "section" ""
    [⟨"TC", some "title_content"⟩] (by decide) (by decide)⟩

/-- Masters without a readable theme contribute no colors. -/
theorem foldl_colors_no_theme (l : List MasterData) (acc : List (String × String))
    (h : ∀ m ∈ l, m.theme = none) :
    l.foldl extractMasterColors acc = acc := by
  induction l generalizing acc with
  | nil => rfl
  | cons m tl ih =>
    have hm : m.theme = none := h m (List.mem_cons_self m tl)
    rw [List.foldl_cons, show extractMasterColors acc m = acc from by
      simp [extractMasterColors, hm]]
    exact ih acc (fun x hx => h x (List.mem_cons_of_mem m hx))

/-- C5 counterexample: an unreadable template package (the
`Presentation(...)` call raising) does not make extraction fail — the
top-level `except` returns the default RawTemplateData instead, so no
`ExtractionError` is ever produced. -/
theorem c5_counterexample :
    extract_raw_template_data none = Except.ok default_raw_template_data
    ∧ ∀ e : ExtractionError, extract_raw_template_data none ≠ Except.error e :=
  ⟨rfl, fun _ h => Except.noConfusion h⟩

/-- C5 (amended): extraction is total and never fails: an unreadable
package yields the fixed default RawTemplateData (empty collections), a
template with no readable master theme still yields its layouts while its
colors default to the empty collection, and an unreadable single
placeholder is skipped without aborting the layout extraction. -/
theorem c5_extraction_total (inp : Option TemplateData) (t : TemplateData)
    (hmasters : ∀ m ∈ t.masters, m.theme = none) :
    (∃ r, extract_raw_template_data inp = Except.ok r)
    ∧ extract_raw_template_data none = Except.ok default_raw_template_data
    ∧ (extractedRaw t).theme_colors = []
    ∧ (extractedRaw t).layouts = extract_layouts t.layouts
    ∧ (∀ (nm : String) (ph : PlaceholderRaw),
        extract_layouts [⟨nm, [some ph, none]⟩] = [⟨0, nm, [ph]⟩]) := by
  refine ⟨?_, rfl, ?_, rfl, fun nm ph => rfl⟩
  · cases inp with
    | none => exact ⟨_, rfl⟩
    | some t2 => exact ⟨_, rfl⟩
  · exact foldl_colors_no_theme t.masters [] hmasters

/-- C5 witness: the amended theorem applied to an unreadable package and a
concrete theme-less template. -/
theorem c5_extraction_total_witness :
    (∀ m ∈ (TemplateData.mk 0 0 [] [] []).masters, m.theme = none)
    ∧ ((∃ r, extract_raw_template_data none = Except.ok r)
      ∧ extract_raw_template_data none = Except.ok default_raw_template_data
      ∧ (extractedRaw (TemplateData.mk 0 0 [] [] [])).theme_colors = []
      ∧ (extractedRaw (TemplateData.mk 0 0 [] [] [])).layouts
          = extract_layouts (TemplateData.mk 0 0 [] [] []).layouts
      ∧ (∀ (nm : String) (ph : PlaceholderRaw),
          extract_layouts [⟨nm, [some ph, none]⟩] = [⟨0, nm, [ph]⟩])) :=
  ⟨by simp, c5_extraction_total none (TemplateData.mk 0 0 [] [] []) (by simp)⟩

/-- C6 counterexample: whitespace-only content is truthy in Python, so it
is not replaced by the synthesized phrase, and the rendered body text of
that slide is blank. -/
theorem c6_counterexample :
    effective_body_text "Intro" (.str " ") = " "
    ∧ hasNonWs (effective_body_text "Intro" (.str " ")) = false
    ∧ effective_body_text "Intro" (.str " ") ≠ "Key points about Intro" :=
  ⟨rfl, by decide, by decide⟩

/-- C6 (amended): the body text is replaced by the synthesized phrase
(`"Key points about {title}"` for a non-empty title, a generic phrase
otherwise) exactly when the content is Python-falsy — the empty string or
the empty list — and the replacement is non-blank; truthy content,
including whitespace-only strings, is rendered verbatim. -/
theorem c6_body_fallback (titleText : String) (c c2 : Content)
    (hfalsy : pyTruthyContent c = false) (htruthy : pyTruthyContent c2 = true) :
    effective_body_text titleText c
      = (if titleText != "" then "Key points about " ++ titleText
         else "Content will be added here")
    ∧ hasNonWs (effective_body_text titleText c) = true
    ∧ effective_body_text titleText c2 = render_body c2 := by
  have h1 : effective_body_text titleText c
      = (if titleText != "" then "Key points about " ++ titleText
         else "Content will be added here") := by
    simp only [effective_body_text, effective_body_content, hfalsy, Bool.false_eq_true,
      if_false, render_body]
  refine ⟨h1, ?_, ?_⟩
  · rw [h1]
    by_cases ht : (titleText != "") = true
    · rw [if_pos ht]
      simp only [hasNonWs, String.data_append, List.any_append]
      have hk : "Key points about ".data.any (fun ch => !ch.isWhitespace) = true := by
        decide
      rw [hk, Bool.true_or]
    · rw [if_neg ht]
      decide
  · simp only [effective_body_text, effective_body_content, htruthy, if_true]

/-- C6 witness: the amended theorem applied to empty and non-empty
concrete content. -/
theorem c6_body_fallback_witness :
    pyTruthyContent (Content.str "") = false
    ∧ (effective_body_text "T" (Content.str "")
        = (if "T" != "" then "Key points about " ++ "T" else "Content will be added here")
      ∧ hasNonWs (effective_body_text "T" (Content.str "")) = true
      ∧ effective_body_text "T" (Content.str "x") = render_body (Content.str "x")) :=
  ⟨by decide, c6_body_fallback "T" (Content.str "") (Content.str "x") (by decide) (by decide)⟩

/-- C8: the `should_apply` predicate is exactly the claimed one — an asset
qualifies for slide i iff its policy is "all", or "title_only" with i = 0,
and "none" never qualifies — but the claimed placement never happens:
`_add_manifest_assets` leaves every slide unchanged, so the title_only
asset that qualifies for slide 0 (and not slide 1) is merely logged as
"Would add asset logo_main", never placed, against the function's own
stated purpose and its TODO. -/
theorem c8_asset_policy_unimplemented (policy : String) (i : Nat)
    (slidePictures : List String) (assets : List AssetDef) :
    (should_apply_asset policy i = true
      ↔ (policy = "all" ∨ (policy = "title_only" ∧ i = 0)))
    ∧ should_apply_asset "none" i = false
    ∧ should_apply_asset "title_only" 0 = true
    ∧ should_apply_asset "title_only" 1 = false
    ∧ (add_manifest_assets slidePictures assets i).1 = slidePictures
    ∧ (add_manifest_assets [] [⟨"logo_main", some "title_only"⟩] 0).1 = []
    ∧ (add_manifest_assets [] [⟨"logo_main", some "title_only"⟩] 0).2 = ["logo_main"] := by
  refine ⟨?_, ?_, rfl, rfl, rfl, rfl, rfl⟩
  · simp [should_apply_asset]
  · simp [should_apply_asset]

/-- C9: a ContentBlock whose content is a list of bullet strings makes
`.strip()` raise inside `_resolve_layout_from_manifest`, so resolution
returns none whatever the manifest layouts are, and
`_create_slide_with_manifest` substitutes the hard default layout — the
presentation's second slide layout, or its first when only one exists. -/
theorem c9_list_content_default (t hint notes : String) (itemsv : List String)
    (mls : List LayoutDef) (prs : List PrsLayout) :
    chooseManifestLayout ⟨t, .items itemsv, hint, notes⟩ mls = none
    ∧ resolve_layout_from_manifest ⟨t, .items itemsv, hint, notes⟩ mls prs = none
    ∧ create_slide_layout_choice ⟨t, .items itemsv, hint, notes⟩ mls prs
        = (if prs.length > 1 then prs[1]? else prs[0]?) := by
  have h1 : chooseManifestLayout ⟨t, .items itemsv, hint, notes⟩ mls = none := by
    by_cases hm : mls.isEmpty <;> simp [chooseManifestLayout, hm]
  have h2 : resolve_layout_from_manifest ⟨t, .items itemsv, hint, notes⟩ mls prs = none := by
    simp [resolve_layout_from_manifest, h1]
  refine ⟨h1, h2, ?_⟩
  simp [create_slide_layout_choice, h2]

/-- C10: `_apply_text_formatting` modifies at most the font of the first
run of the first paragraph — that run's text, all other runs and all other
paragraphs are untouched — and when the frame has no paragraphs or its
first paragraph has no runs, the frame is returned entirely unchanged. -/
theorem c10_formatting_frame (tf : List (List TextRun)) (rules : FormatRules)
    (palette : List (String × String)) :
    (tf = [] → apply_text_formatting tf rules palette = tf)
    ∧ (∀ rest, tf = [] :: rest → apply_text_formatting tf rules palette = tf)
    ∧ (∀ r0 rs rest, tf = (r0 :: rs) :: rest →
        apply_text_formatting tf rules palette
          = ({ text := r0.text, font := applyFontRules r0.font rules palette } :: rs) :: rest) := by
  refine ⟨?_, ?_, ?_⟩
  · intro h
    subst h
    rfl
  · intro rest h
    subst h
    rfl
  · intro r0 rs rest h
    subst h
    rfl

/-- C10 witness: the theorem applied to a concrete two-paragraph frame. -/
theorem c10_formatting_frame_witness :
    apply_text_formatting
        [[⟨"a", ⟨none, none, none, none⟩⟩, ⟨"b", ⟨none, none, none, none⟩⟩],
         [⟨"c", ⟨none, none, none, none⟩⟩]]
        ⟨some "Calibri", some 32, some true, some "primary"⟩
        [("primary", "#1f4e79")]
      = ({ text := "a",
           font := applyFontRules ⟨none, none, none, none⟩
             ⟨some "Calibri", some 32, some true, some "primary"⟩
             [("primary", "#1f4e79")] } :: [⟨"b", ⟨none, none, none, none⟩⟩])
        :: [[⟨"c", ⟨none, none, none, none⟩⟩]] :=
  (c10_formatting_frame _ _ _).2.2 _ _ _ rfl

/-- Dict assignment makes its own key present with its value. -/
theorem insertAssoc_mem_self {α : Type} (l : List (String × α)) (k : String) (v : α) :
    (k, v) ∈ insertAssoc l k v := by
  unfold insertAssoc
  by_cases h : l.any (fun p => p.1 == k)
  · rw [if_pos h]
    obtain ⟨p, hp, hpk⟩ := List.any_eq_true.mp h
    exact List.mem_map.mpr ⟨p, hp, by rw [if_pos hpk]⟩
  · rw [if_neg h]
    exact List.mem_append_right _ (List.mem_singleton.mpr rfl)

/-- Dict assignment leaves entries under other keys in place. -/
theorem insertAssoc_mem_preserve {α : Type} {l : List (String × α)} {k : String}
    {v : α} (hmem : (k, v) ∈ l) (k' : String) (v' : α) (hne : k ≠ k') :
    (k, v) ∈ insertAssoc l k' v' := by
  unfold insertAssoc
  by_cases h : l.any (fun p => p.1 == k')
  · rw [if_pos h]
    refine List.mem_map.mpr ⟨(k, v), hmem, ?_⟩
    have hc : ¬ (((k, v).1 == k') = true) := fun hc => hne (by simpa using hc)
    rw [if_neg hc]
  · rw [if_neg h]
    exact List.mem_append_left _ hmem

/-- A color-loop iteration for a slot with a different name keeps an
existing entry. -/
theorem colorSchemeStep_preserve (cs : Nat → Option Nat)
    {a : List (String × String)} {k v : String} (hmem : (k, v) ∈ a) (j : Nat)
    (hne : k ≠ colorName j) : (k, v) ∈ colorSchemeStep cs a j := by
  unfold colorSchemeStep
  cases cs j
  · exact hmem
  · exact insertAssoc_mem_preserve hmem _ _ hne

/-- The color loop only reads the scheme at the visited indices. -/
theorem foldl_colorSchemeStep_congr (l : List Nat) (f g : Nat → Option Nat)
    (h : ∀ j ∈ l, f j = g j) (acc : List (String × String)) :
    l.foldl (colorSchemeStep f) acc = l.foldl (colorSchemeStep g) acc := by
  induction l generalizing acc with
  | nil => rfl
  | cons j tl ih =>
    rw [List.foldl_cons, List.foldl_cons,
      show colorSchemeStep f acc j = colorSchemeStep g acc j from by
        unfold colorSchemeStep
        rw [h j (List.mem_cons_self j tl)]]
    exact ih (fun x hx => h x (List.mem_cons_of_mem j hx)) _

/-- C7 counterexample: a color scheme whose only readable slot is index 10
(outside 0..9) still contributes an entry, named `theme_color_10` — it is
not ignored as the claim states. -/
theorem c7_counterexample :
    extractColorSchemeEntries (fun j => if j = 10 then some 255 else none) []
      = [("theme_color_10", "#0000ff")]
    ∧ extractColorSchemeEntries (fun j => if j = 10 then some 255 else none) [] ≠ [] := by
  refine ⟨by decide, by decide⟩

/-- C7 (amended): slot names for indices 0..9 are exactly
bg1, text1, bg2, text2, accent1..accent6, but indices 10 and 11 are not
ignored — a readable slot 10 contributes an entry keyed `theme_color_10` —
while indices 12 and above are never read (the loop is `range(12)`), so
only they contribute nothing. -/
theorem c7_color_slot_names (cs : Nat → Option Nat) (rgb : Nat)
    (h10 : cs 10 = some rgb) :
    (colorName 0 = "bg1" ∧ colorName 1 = "text1" ∧ colorName 2 = "bg2"
      ∧ colorName 3 = "text2" ∧ colorName 4 = "accent1" ∧ colorName 5 = "accent2"
      ∧ colorName 6 = "accent3" ∧ colorName 7 = "accent4" ∧ colorName 8 = "accent5"
      ∧ colorName 9 = "accent6")
    ∧ ("theme_color_10", "#" ++ hex6 rgb) ∈ extractColorSchemeEntries cs []
    ∧ (∀ f g : Nat → Option Nat, (∀ i, i < 12 → f i = g i) →
        extractColorSchemeEntries f [] = extractColorSchemeEntries g []) := by
  refine ⟨⟨rfl, rfl, rfl, rfl, rfl, rfl, rfl, rfl, rfl, rfl⟩, ?_, ?_⟩
  · have hsplit : extractColorSchemeEntries cs []
        = colorSchemeStep cs
            (colorSchemeStep cs ((List.range 10).foldl (colorSchemeStep cs) []) 10) 11 := by
      show (List.range 12).foldl (colorSchemeStep cs) [] = _
      rw [show List.range 12 = List.range 10 ++ [10, 11] from by decide,
        List.foldl_append]
      rfl
    rw [hsplit]
    have h10mem : ("theme_color_10", "#" ++ hex6 rgb)
        ∈ colorSchemeStep cs ((List.range 10).foldl (colorSchemeStep cs) []) 10 := by
      unfold colorSchemeStep
      rw [h10]
      exact insertAssoc_mem_self _ _ _
    exact colorSchemeStep_preserve cs h10mem 11 (by decide)
  · intro f g hfg
    exact foldl_colorSchemeStep_congr (List.range 12) f g
      (fun j hj => hfg j (List.mem_range.mp hj)) []

/-- C7 witness: the amended theorem applied to a concrete color scheme. -/
theorem c7_color_slot_names_witness :
    (fun j => if j = 10 then some 255 else none : Nat → Option Nat) 10 = some 255
    ∧ ((colorName 0 = "bg1" ∧ colorName 1 = "text1" ∧ colorName 2 = "bg2"
        ∧ colorName 3 = "text2" ∧ colorName 4 = "accent1" ∧ colorName 5 = "accent2"
        ∧ colorName 6 = "accent3" ∧ colorName 7 = "accent4" ∧ colorName 8 = "accent5"
        ∧ colorName 9 = "accent6")
      ∧ ("theme_color_10", "#" ++ hex6 255)
          ∈ extractColorSchemeEntries (fun j => if j = 10 then some 255 else none) []
      ∧ (∀ f g : Nat → Option Nat, (∀ i, i < 12 → f i = g i) →
          extractColorSchemeEntries f [] = extractColorSchemeEntries g [])) :=
  ⟨rfl, c7_color_slot_names (fun j => if j = 10 then some 255 else none) 255 rfl⟩
